import Mathlib

/-!
Verification of the youtube-vocab-generator pipeline (`src/main.py`).

The development shallowly embeds the program's pure logic over `List Char`
and `String`, models the filesystem as an association list from path to
content, and models the three external collaborators (audio downloader,
transcription engine, completion service) as function-valued parameters.

Modelling notes:
* Python `re` patterns used by the program are embedded as direct,
  deterministic scanning functions implementing exactly the searches the
  program performs (leftmost match, greedy / lazy quantifier semantics,
  `MULTILINE` line anchoring).  `IGNORECASE` is modelled as ASCII case
  folding; the `\s`, `\d` and `\w` character classes are modelled over
  their ASCII members.
* The non-ASCII label alternatives and the emoji marker appearing in the
  source are reproduced with their exact code points.
-/

namespace YVocab

/-- Python `str` whitespace (`\s`), ASCII members. -/
def isPySpace (c : Char) : Bool :=
  c = ' ' || c = '\t' || c = '\n' || c = '\r' || c = Char.ofNat 11 || c = Char.ofNat 12

/-- Python `str.strip()` on a character list. -/
def pyStripL (cs : List Char) : List Char :=
  ((cs.dropWhile isPySpace).reverse.dropWhile isPySpace).reverse

/-- Python `str.strip()`. -/
def pyStrip (s : String) : String := (pyStripL s.data).asString

/-- ASCII case folding used to model `re.IGNORECASE`. -/
def lcEq (a b : Char) : Bool := a.toLower = b.toLower

/-- Drop an exact (case-sensitive) prefix, returning the remainder. -/
def dropPre : List Char → List Char → Option (List Char)
  | [], s => some s
  | _ :: _, [] => none
  | a :: as, b :: bs => if a = b then dropPre as bs else none

/-- Does `s` start with `pre` (exact characters)? -/
def startsWithL (pre s : List Char) : Bool := (dropPre pre s).isSome

/-- Does `s` end with `suf` (exact characters)? -/
def endsWithL (suf s : List Char) : Bool := (dropPre suf.reverse s.reverse).isSome

/-- Match a literal pattern fragment case-insensitively (`re.IGNORECASE`),
returning the remaining input. -/
def matchLit : List Char → List Char → Option (List Char)
  | [], s => some s
  | _ :: _, [] => none
  | l :: ls, c :: cs => if lcEq l c then matchLit ls cs else none

/-- Regex `(.+?)` followed by a continuation: the lazy quantifier takes the
minimal non-empty run of non-newline characters whose remainder satisfies
the continuation (backtracking by extension on failure). -/
def lazyDot {α : Type} (k : List Char → Option α) : List Char → Option (List Char × α)
  | [] => none
  | c :: rest =>
      if c = '\n' then none
      else
        match k rest with
        | some a => some ([c], a)
        | none =>
          match lazyDot k rest with
          | some (p, a) => some (c :: p, a)
          | none => none

/-- Regex `(.+)` (greedy, no DOTALL): the rest of the current line. -/
def lineRest (s : List Char) : List Char := s.takeWhile (fun c => c ≠ '\n')

/-- Try a position-wise matcher at every suffix, leftmost first
(`re.search` semantics). -/
def searchAny {α : Type} (f : List Char → Option α) : List Char → Option α
  | [] => f []
  | c :: rest =>
      match f (c :: rest) with
      | some a => some a
      | none => searchAny f rest

/-- All suffixes that begin just after a newline (the non-initial `^`
anchor positions of `re.MULTILINE`). -/
def lineStarts : List Char → List (List Char)
  | [] => []
  | c :: rest => if c = '\n' then rest :: lineStarts rest else lineStarts rest

/-- Split on every maximal run of three or more hyphens
(`re.split(r'-{3,}', s)`). `cur` is the reversed current block and `p`
counts pending hyphens. -/
def splitDashesAux : List Char → List Char → Nat → List (List Char)
  | [], cur, p =>
      if 3 ≤ p then [cur.reverse, []]
      else [(List.replicate p '-' ++ cur).reverse]
  | c :: rest, cur, p =>
      if c = '-' then splitDashesAux rest cur (p + 1)
      else if 3 ≤ p then cur.reverse :: splitDashesAux rest [c] 0
      else splitDashesAux rest (c :: (List.replicate p '-' ++ cur)) 0

/-- `re.split(r'-{3,}', s)`. -/
def splitDashes (cs : List Char) : List (List Char) := splitDashesAux cs [] 0

/-- The character class `[\s*]` of the numbered-dialect pattern. -/
def isSpaceStar (c : Char) : Bool := isPySpace c || c = '*'

/-- The mojibake alternative label of the example pattern
(source line 218/236). -/
def exampleAlt : List Char := "ÏòàÏãú".data

/-- The mojibake alternative label of the translation pattern
(source line 219/237). -/
def translationAlt : List Char := "Ìï¥ÏÑù".data

/-- The mojibake alternative label of the legacy word/meaning pattern
(source line 235). -/
def meaningAlt : List Char := "Îúª".data

/-- The marker placed in every rendered card (source lines 226/245). -/
def emojiTag : String := "üìù"

/-- Match `[\s*]*(\d+)[\s*]*\.\s*\[(.+?)\]:` at one position (the body of
the numbered pattern after its `^` anchor); returns the captured ordinal
digits and term. -/
def matchNumberedAt (s : List Char) : Option (List Char × List Char) :=
  let s1 := s.dropWhile isSpaceStar
  let num := s1.takeWhile Char.isDigit
  let s2 := (s1.dropWhile Char.isDigit).dropWhile isSpaceStar
  if num.isEmpty then none
  else
    match s2 with
    | '.' :: s3 =>
        match s3.dropWhile isPySpace with
        | '[' :: s4 =>
            match lazyDot (fun r => matchLit "]:".data r) s4 with
            | some (term, _) => some (num, term)
            | none => none
        | _ => none
    | _ => none

/-- `numbered_pattern.search(entry)` with `re.MULTILINE`: try the body at
the start of the string and after every newline, leftmost first. -/
def searchNumbered (s : List Char) : Option (List Char × List Char) :=
  (s :: lineStarts s).findSome? matchNumberedAt

/-- Match `meaning \[(.+?)\]` at one position. -/
def matchMeaningAt (s : List Char) : Option (List Char) :=
  match matchLit "meaning [".data s with
  | some r =>
      match lazyDot (fun t => matchLit "]".data t) r with
      | some (m, _) => some m
      | none => none
  | none => none

/-- `re.search(r'meaning \[(.+?)\]', entry, re.IGNORECASE)`. -/
def searchMeaning (s : List Char) : Option (List Char) := searchAny matchMeaningAt s

/-- Match `(?:LAB1|LAB2): (.+)` at one position, trying the alternatives
in order (with backtracking into the second alternative). -/
def matchFieldAt (lab1 lab2 : List Char) (s : List Char) : Option (List Char) :=
  match matchLit (lab1 ++ ": ".data) s with
  | some r =>
      let cap := lineRest r
      if cap.isEmpty then
        match matchLit (lab2 ++ ": ".data) s with
        | some r2 =>
            let cap2 := lineRest r2
            if cap2.isEmpty then none else some cap2
        | none => none
      else some cap
  | none =>
      match matchLit (lab2 ++ ": ".data) s with
      | some r2 =>
          let cap2 := lineRest r2
          if cap2.isEmpty then none else some cap2
      | none => none

/-- `re.search(r'(?:example|…): (.+)', entry, re.IGNORECASE)`
(numbered-dialect alternative order, source line 218). -/
def exampleSearchA (s : List Char) : Option (List Char) :=
  searchAny (matchFieldAt "example".data exampleAlt) s

/-- `re.search(r'(?:translation|…): (.+)', entry, re.IGNORECASE)`
(numbered-dialect alternative order, source line 219). -/
def translationSearchA (s : List Char) : Option (List Char) :=
  searchAny (matchFieldAt "translation".data translationAlt) s

/-- `re.search(r'(?:…|example): (.+)', entry, re.IGNORECASE)`
(legacy-dialect alternative order, source line 236). -/
def exampleSearchB (s : List Char) : Option (List Char) :=
  searchAny (matchFieldAt exampleAlt "example".data) s

/-- `re.search(r'(?:…|translation): (.+)', entry, re.IGNORECASE)`
(legacy-dialect alternative order, source line 237). -/
def translationSearchB (s : List Char) : Option (List Char) :=
  searchAny (matchFieldAt translationAlt "translation".data) s

/-- Match `\[(.+?)\]: (?:…|meaning) \[(.+?)\]` at one position; returns the
captured word and meaning.  The outer lazy capture backtracks by
extension over the whole remainder of the pattern. -/
def matchLegacyAt (s : List Char) : Option (List Char × List Char) :=
  match s with
  | '[' :: r =>
      let inner : List Char → Option (List Char) := fun u =>
        match lazyDot (fun v => matchLit "]".data v) u with
        | some (m, _) => some m
        | none => none
      let tail : List Char → Option (List Char) := fun t =>
        match matchLit ("]: ".data ++ meaningAlt ++ " [".data) t with
        | some u => inner u
        | none =>
            match matchLit "]: meaning [".data t with
            | some u => inner u
            | none => none
      match lazyDot tail r with
      | some (w, m) => some (w, m)
      | none => none
  | _ => none

/-- `re.search(r'\[(.+?)\]: (?:…|meaning) \[(.+?)\]', entry, re.IGNORECASE)`. -/
def searchLegacy (s : List Char) : Option (List Char × List Char) :=
  searchAny matchLegacyAt s

/-- One extracted study item (the spec's VocabularyRecord): the program
captures the ordinal digit text (numbered dialect only), the term and the
three labelled fields, each `strip()`-ped. -/
structure VocabRecord where
  ordinal : Option String
  term : String
  meaning : String
  exampleText : String
  translation : String
deriving Repr, DecidableEq

/-- `strip()` a captured group and pack it as a string. -/
def strS (cs : List Char) : String := (pyStripL cs).asString

/-- Parse one split-off block into at most one record: skip blank blocks,
try the numbered dialect first, otherwise the legacy dialect; in either
dialect all three labelled fields must be found (source lines 204-251). -/
def blockRecord (entry : List Char) : Option VocabRecord :=
  if (pyStripL entry).isEmpty then none
  else
    match searchNumbered entry with
    | some (num, word) =>
        match searchMeaning entry, exampleSearchA entry, translationSearchA entry with
        | some m, some ex, some t =>
            some ⟨some num.asString, strS word, strS m, strS ex, strS t⟩
        | _, _, _ => none
    | none =>
        match searchLegacy entry, exampleSearchB entry, translationSearchB entry with
        | some (w, m), some ex, some t =>
            some ⟨none, strS w, strS m, strS ex, strS t⟩
        | _, _, _ => none

/-- One markdown card (the f-string templates at source lines 226-231 and
245-250; the numbered variant carries the ordinal in the sub-heading). -/
def card (r : VocabRecord) : String :=
  match r.ordinal with
  | some n =>
      "### " ++ n ++ ". " ++ emojiTag ++ " **" ++ r.term ++ "**  \n- **Meaning**: "
        ++ r.meaning ++ "  \n- **Example**: *" ++ r.exampleText
        ++ "*  \n- **Translation**: " ++ r.translation ++ "\n\n---"
  | none =>
      "### " ++ emojiTag ++ " **" ++ r.term ++ "**  \n- **Meaning**: "
        ++ r.meaning ++ "  \n- **Example**: *" ++ r.exampleText
        ++ "*  \n- **Translation**: " ++ r.translation ++ "\n\n---"

/-- The `for entry in entries` loop of `save_claude_response`, at the
record level: each parsed block appends one record to the accumulator. -/
def extractLoop : List (List Char) → List VocabRecord → List VocabRecord
  | [], acc => acc
  | e :: es, acc =>
      match blockRecord e with
      | some r => extractLoop es (acc ++ [r])
      | none => extractLoop es acc

/-- `re.split(r'-{3,}', response.strip())`. -/
def splitEntries (s : String) : List (List Char) := splitDashes (pyStripL s.data)

/-- The spec's `extract`: the ordered records parsed out of a completion
text. -/
def extract (s : String) : List VocabRecord := extractLoop (splitEntries s) []

/-- The rendered document: title heading plus the cards joined by blank
lines (source line 254). -/
def renderDoc (title : String) (rs : List VocabRecord) : String :=
  "# " ++ title ++ "\n\n" ++ String.intercalate "\n\n" (rs.map card)

/-- `markdown_text` as built by `save_claude_response`. -/
def markdownText (response title : String) : String := renderDoc title (extract response)

/-! ## Filename machinery of `save_claude_response` -/

/-- `os.path.basename` (POSIX): everything after the last slash. -/
def basename (p : String) : String :=
  ((p.data.reverse.takeWhile (fun c => c ≠ '/')).reverse).asString

/-- `os.path.dirname` (POSIX): everything before the last slash, with
trailing slashes stripped unless the head is all slashes. -/
def dirname (p : String) : String :=
  let head := (p.data.reverse.dropWhile (fun c => c ≠ '/')).reverse
  if head.isEmpty then ""
  else if head.all (fun c => c = '/') then head.asString
  else ((head.reverse.dropWhile (fun c => c = '/')).reverse).asString

/-- `os.path.splitext(name)[0]` for a bare file name: strip the extension
at the last dot, unless every character before that dot is itself a dot. -/
def splitextBase (name : String) : String :=
  let cs := name.data
  let ext := cs.reverse.takeWhile (fun c => c ≠ '.')
  if ext.length = cs.length then name
  else
    let stem := (cs.reverse.drop (ext.length + 1)).reverse
    if stem.all (fun c => c = '.') then name else stem.asString

/-- Python `\w` (ASCII members). -/
def isWordChar (c : Char) : Bool := c.isAlphanum || c = '_'

/-- `re.sub(r'[^\w\s-]', '', title).strip().replace(' ', '_')`
(source line 191). -/
def safeTitle (t : String) : String :=
  ((pyStripL (t.data.filter (fun c => isWordChar c || isPySpace c || c = '-'))).map
    (fun c => if c = ' ' then '_' else c)).asString

/-! ## Filesystem model

Flat files on a local filesystem, as an association list from path to
content in creation order (`os.listdir` is modelled as returning files in
that order). -/

structure FS where
  files : List (String × String)
deriving Repr, DecidableEq

/-- Read a file's content, `none` when the path does not exist (a Python
`open` on it would raise). -/
def FS.read (fs : FS) (p : String) : Option String :=
  (fs.files.find? (fun q => q.1 == p)).map (fun q => q.2)

/-- `os.path.exists`. -/
def FS.pathExists (fs : FS) (p : String) : Bool := (fs.read p).isSome

/-- Overwrite the binding for `p` in place, or append a fresh one. -/
def setFiles (p v : String) : List (String × String) → List (String × String)
  | [] => [(p, v)]
  | q :: rest => if q.1 == p then (p, v) :: rest else q :: setFiles p v rest

/-- Write (create or overwrite) a file; creation appends in directory
order, overwriting keeps the position. -/
def FS.write (fs : FS) (p v : String) : FS := ⟨setFiles p v fs.files⟩

/-- `[f for f in os.listdir(audio_dir) if f.endswith('.wav')]`: names of
the `.wav` files directly inside `dir`. -/
def wavNames (fs : FS) (dir : String) : List String :=
  fs.files.filterMap (fun q =>
    match dropPre (dir ++ "/").data q.1.data with
    | some name =>
        if name.all (fun c => c ≠ '/') && endsWithL ".wav".data name
        then some name.asString else none
    | none => none)

/-! ## URL resolution (`get_video_id`, source lines 28-41) -/

/-- The components of `urllib.parse.urlparse` used by the program. -/
structure UrlParts where
  scheme : String
  netloc : String
  path : String
  query : String
  fragment : String
deriving Repr, DecidableEq

/-- Split at the first occurrence of `sep`: the part before it and, when
present, the part after it. -/
def splitFirst : List Char → Char → List Char × Option (List Char)
  | [], _ => ([], none)
  | c :: rest, sep =>
      if c = sep then ([], some rest)
      else
        let (a, b) := splitFirst rest sep
        (c :: a, b)

/-- Split at every occurrence of `sep` (Python `str.split(sep)`); `cur`
is the reversed current piece. -/
def splitAllAux (sep : Char) : List Char → List Char → List (List Char)
  | [], cur => [cur.reverse]
  | c :: rest, cur =>
      if c = sep then cur.reverse :: splitAllAux sep rest []
      else splitAllAux sep rest (c :: cur)

/-- Characters allowed after the first letter of a URL scheme. -/
def isSchemeChar (c : Char) : Bool := c.isAlpha || c.isDigit || c = '+' || c = '-' || c = '.'

/-- `urllib.parse.urlparse`, for the component shapes the program
inspects: optional scheme, `//`-introduced netloc up to the next
`/`, `?` or `#`, then fragment after `#` and query after `?`. -/
def urlparse (url : String) : UrlParts :=
  let cs := url.data
  let schemeRest : List Char × List Char :=
    match splitFirst cs ':' with
    | (before, some after) =>
        if !before.isEmpty
            && (match before with | c :: _ => c.isAlpha | [] => false)
            && before.all isSchemeChar
        then (before.map Char.toLower, after) else ([], cs)
    | (_, none) => ([], cs)
  let netlocRest : List Char × List Char :=
    match schemeRest.2 with
    | '/' :: '/' :: r =>
        (r.takeWhile (fun c => c ≠ '/' && c ≠ '?' && c ≠ '#'),
         r.dropWhile (fun c => c ≠ '/' && c ≠ '?' && c ≠ '#'))
    | other => ([], other)
  let fragSplit := splitFirst netlocRest.2 '#'
  let querySplit := splitFirst fragSplit.1 '?'
  ⟨schemeRest.1.asString, netlocRest.1.asString, querySplit.1.asString,
   ((querySplit.2).getD []).asString, ((fragSplit.2).getD []).asString⟩

/-- Value of one hexadecimal digit of a percent-escape. -/
def hexVal (c : Char) : Option Nat :=
  if c.isDigit then some (c.toNat - 48)
  else
    let l := c.toLower
    if 97 ≤ l.toNat && l.toNat ≤ 102 then some (l.toNat - 87) else none

/-- `urllib.parse.unquote` after the `'+' → ' '` substitution of
`parse_qsl`, for ASCII percent-escapes (multi-byte UTF-8 escapes are left
verbatim). -/
def unquotePlus : List Char → List Char
  | [] => []
  | '+' :: rest => ' ' :: unquotePlus rest
  | '%' :: a :: b :: rest =>
      match hexVal a, hexVal b with
      | some ha, some hb =>
          if ha * 16 + hb < 128 then Char.ofNat (ha * 16 + hb) :: unquotePlus rest
          else '%' :: a :: b :: unquotePlus rest
      | _, _ => '%' :: unquotePlus (a :: b :: rest)
  | c :: rest => c :: unquotePlus rest

/-- `parse_qs(query)[key]`: the decoded values of the non-blank fields
bound to `key` (`keep_blank_values` is false, fields without `=` are
dropped). -/
def qsValues (query : String) (key : String) : List String :=
  (splitAllAux '&' query.data []).filterMap (fun field =>
    match splitFirst field '=' with
    | (k, some v) =>
        if unquotePlus k = key.data && !v.isEmpty then some (unquotePlus v).asString
        else none
    | (_, none) => none)

/-- `get_video_id`: pattern-match the known YouTube URL shapes, raising
`ValueError` (modelled as `Except.error`) on any other shape; a watch URL
without a `v` parameter raises `KeyError('v')`. -/
def get_video_id (url : String) : Except String String :=
  let u := urlparse url
  if u.netloc = "youtu.be" then Except.ok (u.path.drop 1)
  else if u.netloc = "www.youtube.com" ∨ u.netloc = "youtube.com" then
    if u.path = "/watch" then
      match qsValues u.query "v" with
      | v :: _ => Except.ok v
      | [] => Except.error "KeyError: 'v'"
    else if startsWithL "/embed/".data u.path.data then
      Except.ok (((splitAllAux '/' u.path.data []).getD 2 []).asString)
    else if startsWithL "/v/".data u.path.data then
      Except.ok (((splitAllAux '/' u.path.data []).getD 2 []).asString)
    else Except.error ("Unsupported YouTube URL format: " ++ url)
  else Except.error ("Unsupported YouTube URL format: " ++ url)

/-! ## External collaborators and pipeline stages -/

/-- The three external collaborators, as deterministic parameters:
`download url` yields the video title and the audio payload written as
`{title}.wav`; `transcribe modelName payload` yields the transcript text
and the detected language; `complete prompt` yields the completion text
or the message of a raised exception. -/
structure World where
  download : String → String × String
  transcribe : String → String → String × String
  complete : String → Except String String

/-- Python `str.replace(old, new)` (all non-overlapping occurrences,
left to right); fuel-indexed to keep the recursion structural. -/
def replaceFuel (old new : List Char) : Nat → List Char → List Char
  | _, [] => []
  | 0, s => s
  | fuel + 1, c :: rest =>
      if old.isEmpty then c :: replaceFuel old new fuel rest
      else
        match dropPre old (c :: rest) with
        | some rem => new ++ replaceFuel old new fuel rem
        | none => c :: replaceFuel old new fuel rest

/-- Python `s.replace(old, new)`. -/
def replaceAllS (s old new : String) : String :=
  (replaceFuel old.data new.data s.data.length s.data).asString

/-- `f.readline()` stops at the first newline. -/
def firstLine (s : String) : String := (s.data.takeWhile (fun c => c ≠ '\n')).asString

/-- The full prompt sent to the completion service: the stripped template
with `TARGET_LANGUAGE` substituted, then `\n\nText:\n` and the transcript
(source lines 146-155). -/
def mkFullPrompt (template targetLanguage text : String) : String :=
  replaceAllS (pyStrip template) "TARGET_LANGUAGE" targetLanguage ++ "\n\nText:\n" ++ text

/-- `download_youtube_audio` (source lines 61-92): if any `.wav` file is
already in the audio directory and force is unset, return the first such
file's path; otherwise invoke the downloader and persist its audio as
`{title}.wav`. -/
def download_youtube_audio (w : World) (url audioDir : String) (force : Bool) (fs : FS) :
    FS × String :=
  match wavNames fs audioDir, force with
  | f :: _, false => (fs, audioDir ++ "/" ++ f)
  | _, _ =>
      let (title, payload) := w.download url
      let path := audioDir ++ "/" ++ title ++ ".wav"
      (fs.write path payload, path)

/-- `transcribe_with_whisperx` (source lines 94-129): if the canonical
transcript file exists and force is unset, read and return it; otherwise
load the audio asset (raising, i.e. `none`, when it is missing),
transcribe, persist and return the text. -/
def transcribe_with_whisperx (w : World) (audioFile transcriptDir modelName : String)
    (force : Bool) (fs : FS) : Option (FS × String) :=
  let transcriptFile := transcriptDir ++ "/transcription.txt"
  if fs.pathExists transcriptFile && !force then
    (fs.read transcriptFile).map (fun t => (fs, t))
  else
    match fs.read audioFile with
    | none => none
    | some payload =>
        let fullText := (w.transcribe modelName payload).1
        some (fs.write transcriptFile fullText, fullText)

/-- `query_claude_api` (source lines 131-175): if `vocabulary.md` exists
in the vocabulary directory and force is unset, read and return it;
otherwise read the key and template files (raising, i.e. `none`, when
missing), build the prompt and call the completion service; on success
the raw completion is persisted as `raw_response.txt` and returned; a
raised completion error is caught and returned as the string
`Error: {e}`. -/
def query_claude_api (w : World) (text promptPath keyPath vocabularyDir targetLanguage : String)
    (force : Bool) (fs : FS) : Option (FS × String) :=
  let vocabularyFile := vocabularyDir ++ "/vocabulary.md"
  if fs.pathExists vocabularyFile && !force then
    (fs.read vocabularyFile).map (fun cached => (fs, cached))
  else
    match fs.read keyPath, fs.read promptPath with
    | some _, some templateData =>
        match w.complete (mkFullPrompt templateData targetLanguage text) with
        | Except.ok claudeResponse =>
            some (fs.write (vocabularyDir ++ "/raw_response.txt") claudeResponse, claudeResponse)
        | Except.error e => some (fs, "Error: " ++ e)
    | _, _ => none

/-- `save_claude_response` (source lines 177-260): derive the title from
the audio file name (or from the workspace directory when absent), build
the markdown document and write it as `{date}_{safeTitle}.md`, returning
the written path.  There is no cache guard and no force flag. -/
def save_claude_response (response vocabularyDir : String) (audioFile : Option String)
    (currentDate : String) (fs : FS) : FS × String :=
  let videoTitle :=
    match audioFile with
    | some f => splitextBase (basename f)
    | none => basename (dirname (dirname vocabularyDir))
  let vocabularyFile :=
    vocabularyDir ++ "/" ++ currentDate ++ "_" ++ safeTitle videoTitle ++ ".md"
  let md := markdownText response videoTitle
  (fs.write vocabularyFile md, vocabularyFile)

/-- The CLI options of `parse_arguments`. -/
structure Options where
  url : String
  outputDir : String
  whisperModel : String
  force : Bool
  targetLanguage : String

/-- The artifact locations reported at the end of `main`. -/
structure Manifest where
  videoId : String
  audioFile : String
  transcriptFile : String
  vocabularyFile : String
deriving Repr, DecidableEq

def CLAUDE_API_KEY_FILE_PATH : String := "resources/claude_api_key.txt"

def PROMPT_TEMPLATE_FILE_PATH : String := "resources/prompt.txt"

/-- The orchestration in `main` (source lines 262-310): resolve the
identifier, derive the workspace directories, then run the four stages in
sequence, threading the filesystem through.  `currentDate` stands for
`datetime.now().strftime("%Y%m%d")`.  An uncaught stage failure is an
`Except.error` (the process exits with code 1). -/
def runPipeline (w : World) (opts : Options) (currentDate : String) (fs : FS) :
    Except String (FS × Manifest) :=
  match get_video_id opts.url with
  | Except.error e => Except.error e
  | Except.ok videoId =>
      let videoDir := opts.outputDir ++ "/" ++ videoId
      let audioDir := videoDir ++ "/1_audio"
      let transcriptDir := videoDir ++ "/2_transcript"
      let vocabularyDir := videoDir ++ "/3_vocabulary"
      let r1 := download_youtube_audio w opts.url audioDir opts.force fs
      match transcribe_with_whisperx w r1.2 transcriptDir opts.whisperModel opts.force r1.1 with
      | none => Except.error "transcription failed"
      | some (fs2, text) =>
          match query_claude_api w text PROMPT_TEMPLATE_FILE_PATH CLAUDE_API_KEY_FILE_PATH
              vocabularyDir opts.targetLanguage opts.force fs2 with
          | none => Except.error "claude api failed"
          | some (fs3, response) =>
              let r4 := save_claude_response response vocabularyDir (some r1.2) currentDate fs3
              Except.ok (r4.1,
                ⟨videoId, r1.2, transcriptDir ++ "/transcription.txt", r4.2⟩)

/-! ## Helper lemmas -/

/-- The extraction loop appends exactly the parses of its blocks, in
block order. -/
theorem extractLoop_eq (l : List (List Char)) (acc : List VocabRecord) :
    extractLoop l acc = acc ++ l.filterMap blockRecord := by
  induction l generalizing acc with
  | nil => simp [extractLoop]
  | cons e es ih =>
      cases h : blockRecord e with
      | none => simp [extractLoop, h, ih]
      | some r => simp [extractLoop, h, ih]

/-- Dropping a prefix from itself-plus-rest yields the rest. -/
theorem dropPre_append (xs ys : List Char) : dropPre xs (xs ++ ys) = some ys := by
  induction xs with
  | nil => rfl
  | cons a t ih => simp [dropPre, ih]

theorem data_append (a b : String) : (a ++ b).data = a.data ++ b.data := rfl

theorem append_empty_str (s : String) : s ++ "" = s := by
  cases s with
  | mk d => show String.mk (d ++ []) = String.mk d; rw [List.append_nil]

theorem find_setFiles (l : List (String × String)) (p v : String) :
    ((setFiles p v l).find? (fun q => q.1 == p)).map (fun q => q.2) = some v := by
  induction l with
  | nil => simp [setFiles, List.find?]
  | cons a t ih =>
      cases ha : a.1 == p with
      | true => simp [setFiles, ha, List.find?]
      | false => simp only [setFiles, ha, Bool.false_eq_true, if_false, List.find?, ih]

/-- Reading back a freshly written file yields the written content. -/
theorem FS.read_write (fs : FS) (p v : String) : (fs.write p v).read p = some v := by
  unfold FS.write FS.read
  exact find_setFiles fs.files p v

/-! ## Claim theorems -/

/-- C5: extraction totality.  `extract` is a total function of the input
string (it is defined by structural recursion, so it returns normally on
every input), and on any input all of whose separator-split blocks match
neither dialect it returns the empty sequence of records. -/
theorem extract_total_empty_on_no_match (s : String)
    (h : (splitEntries s).all (fun b => (blockRecord b).isNone) = true) :
    extract s = [] := by
  rw [extract, extractLoop_eq, List.nil_append, List.filterMap_eq_nil_iff]
  intro b hb
  exact Option.isNone_iff_eq_none.mp ((List.all_eq_true.mp h) b hb)

/-- C5 witness: a malformed input on which no block parses, evaluated
concretely. -/
theorem extract_total_empty_on_no_match_witness :
    ((splitEntries "The quick brown fox. No [vocab here\n--- 12 dashes? ---").all
        (fun b => (blockRecord b).isNone) = true)
    ∧ extract "The quick brown fox. No [vocab here\n--- 12 dashes? ---" = [] :=
  ⟨by decide, extract_total_empty_on_no_match _ (by decide)⟩

/-- C6: extraction is order-preserving.  For any decomposition of the
separator-split block list into a front part and a back part, the
extracted records are exactly the parses of the front blocks (in block
order) followed by the parses of the back blocks: output order is block
order, with no re-sorting by the captured ordinal. -/
theorem extract_order_preserving (s : String) (pre post : List (List Char))
    (h : splitEntries s = pre ++ post) :
    extract s = pre.filterMap blockRecord ++ post.filterMap blockRecord := by
  rw [extract, h, extractLoop_eq, List.nil_append, List.filterMap_append]

/-- C6 witness: a two-block input whose records come out in block order. -/
theorem extract_order_preserving_witness :
    (splitEntries "1. [alpha]:\nmeaning [first]\nexample: A.\ntranslation: 하나\n---\n2. [beta]:\nmeaning [second]\nexample: B.\ntranslation: 둘"
      = ["1. [alpha]:\nmeaning [first]\nexample: A.\ntranslation: 하나\n".data,
         "\n2. [beta]:\nmeaning [second]\nexample: B.\ntranslation: 둘".data])
    ∧ extract "1. [alpha]:\nmeaning [first]\nexample: A.\ntranslation: 하나\n---\n2. [beta]:\nmeaning [second]\nexample: B.\ntranslation: 둘"
      = ["1. [alpha]:\nmeaning [first]\nexample: A.\ntranslation: 하나\n".data].filterMap blockRecord
        ++ ["\n2. [beta]:\nmeaning [second]\nexample: B.\ntranslation: 둘".data].filterMap blockRecord :=
  ⟨by decide, extract_order_preserving _ _ _ (by decide)⟩

/-- C8: dialect A sample.  The single block
`1. [hello]:\nmeaning [a greeting]\nexample: Hello there.\ntranslation: 안녕하세요`
extracts to exactly one record with ordinal text `1`, term `hello`,
meaning `a greeting`, example `Hello there.` and translation
`안녕하세요`. -/
theorem dialect_a_sample :
    extract "1. [hello]:\nmeaning [a greeting]\nexample: Hello there.\ntranslation: 안녕하세요"
      = [⟨some "1", "hello", "a greeting", "Hello there.", "안녕하세요"⟩] := by
  decide

/-- C7: all-or-nothing field matching.  Whenever a block yields a record,
either the numbered pattern matched and all three labelled-field searches
of the numbered dialect succeeded on the block, or the numbered pattern
did not match and the legacy combined pattern together with both
remaining labelled-field searches succeeded; a block with any field
missing yields no record, so no partially filled record ever arises. -/
theorem all_or_nothing_fields (e : List Char) (r : VocabRecord)
    (h : blockRecord e = some r) :
    ((searchNumbered e).isSome = true ∧ (searchMeaning e).isSome = true
      ∧ (exampleSearchA e).isSome = true ∧ (translationSearchA e).isSome = true)
    ∨ (searchNumbered e = none ∧ (searchLegacy e).isSome = true
      ∧ (exampleSearchB e).isSome = true ∧ (translationSearchB e).isSome = true) := by
  rw [blockRecord] at h
  by_cases hb : (pyStripL e).isEmpty
  · rw [if_pos hb] at h; exact absurd h (by simp)
  · rw [if_neg hb] at h
    cases hn : searchNumbered e with
    | some nw =>
        rw [hn] at h
        cases hm : searchMeaning e with
        | none => rw [hm] at h; exact absurd h (by simp)
        | some m =>
            cases hx : exampleSearchA e with
            | none => rw [hm, hx] at h; exact absurd h (by simp)
            | some ex =>
                cases ht : translationSearchA e with
                | none => rw [hm, hx, ht] at h; exact absurd h (by simp)
                | some t => exact Or.inl ⟨by simp [hn], by simp [hm], by simp [hx], by simp [ht]⟩
    | none =>
        rw [hn] at h
        cases hw : searchLegacy e with
        | none => rw [hw] at h; exact absurd h (by simp)
        | some wm =>
            cases hx : exampleSearchB e with
            | none => rw [hw, hx] at h; exact absurd h (by simp)
            | some ex =>
                cases ht : translationSearchB e with
                | none => rw [hw, hx, ht] at h; exact absurd h (by simp)
                | some t => exact Or.inr ⟨rfl, by simp [hw], by simp [hx], by simp [ht]⟩

/-- C7 witness: a numbered block with all three fields present, at which
the theorem's hypothesis holds concretely. -/
theorem all_or_nothing_fields_witness :
    blockRecord "1. [hi]:\nmeaning [x]\nexample: y\ntranslation: z".data
        = some (⟨some "1", "hi", "x", "y", "z"⟩ : VocabRecord)
    ∧ (((searchNumbered "1. [hi]:\nmeaning [x]\nexample: y\ntranslation: z".data).isSome = true
        ∧ (searchMeaning "1. [hi]:\nmeaning [x]\nexample: y\ntranslation: z".data).isSome = true
        ∧ (exampleSearchA "1. [hi]:\nmeaning [x]\nexample: y\ntranslation: z".data).isSome = true
        ∧ (translationSearchA "1. [hi]:\nmeaning [x]\nexample: y\ntranslation: z".data).isSome = true)
      ∨ (searchNumbered "1. [hi]:\nmeaning [x]\nexample: y\ntranslation: z".data = none
        ∧ (searchLegacy "1. [hi]:\nmeaning [x]\nexample: y\ntranslation: z".data).isSome = true
        ∧ (exampleSearchB "1. [hi]:\nmeaning [x]\nexample: y\ntranslation: z".data).isSome = true
        ∧ (translationSearchB "1. [hi]:\nmeaning [x]\nexample: y\ntranslation: z".data).isSome = true)) :=
  ⟨by decide,
   all_or_nothing_fields "1. [hi]:\nmeaning [x]\nexample: y\ntranslation: z".data
     ⟨some "1", "hi", "x", "y", "z"⟩ (by decide)⟩

/-- C2: StageCache hit contract.  For each cacheable stage, when the
stage's existence probe reports a hit (a `.wav` file listed in the audio
directory; the canonical transcript file; the `vocabulary.md` probe file)
and force is false, the stage returns the loaded artifact value with the
filesystem untouched — and it does so for every collaborator `w`, so the
expensive compute operation (download, transcription, completion call) is
never consulted. -/
theorem stage_cache_hit_contract :
    (∀ (w : World) (url audioDir : String) (fs : FS) (f : String) (l : List String),
      wavNames fs audioDir = f :: l →
      download_youtube_audio w url audioDir false fs = (fs, audioDir ++ "/" ++ f))
    ∧ (∀ (w : World) (audioFile transcriptDir modelName : String) (fs : FS) (t : String),
      fs.read (transcriptDir ++ "/transcription.txt") = some t →
      transcribe_with_whisperx w audioFile transcriptDir modelName false fs = some (fs, t))
    ∧ (∀ (w : World) (text promptPath keyPath vocabularyDir targetLanguage : String)
        (fs : FS) (v : String),
      fs.read (vocabularyDir ++ "/vocabulary.md") = some v →
      query_claude_api w text promptPath keyPath vocabularyDir targetLanguage false fs
        = some (fs, v)) := by
  refine ⟨?_, ?_, ?_⟩
  · intro w url audioDir fs f l h
    simp only [download_youtube_audio, h]
  · intro w audioFile transcriptDir modelName fs t h
    simp [transcribe_with_whisperx, FS.pathExists, h]
  · intro w text promptPath keyPath vocabularyDir targetLanguage fs v h
    simp [query_claude_api, FS.pathExists, h]

/-- C2 witness: a filesystem holding all three artifacts, on which each
stage reports its cached value unchanged. -/
theorem stage_cache_hit_contract_witness :
    wavNames ⟨[("A/t.wav", "wavbytes"), ("T/transcription.txt", "the text"),
               ("V/vocabulary.md", "the vocab")]⟩ "A" = ["t.wav"]
    ∧ FS.read ⟨[("A/t.wav", "wavbytes"), ("T/transcription.txt", "the text"),
               ("V/vocabulary.md", "the vocab")]⟩ "T/transcription.txt" = some "the text"
    ∧ FS.read ⟨[("A/t.wav", "wavbytes"), ("T/transcription.txt", "the text"),
               ("V/vocabulary.md", "the vocab")]⟩ "V/vocabulary.md" = some "the vocab"
    ∧ download_youtube_audio ⟨fun _ => ("x", "y"), fun _ _ => ("z", "en"), fun _ => Except.ok "c"⟩
        "u" "A" false ⟨[("A/t.wav", "wavbytes"), ("T/transcription.txt", "the text"),
               ("V/vocabulary.md", "the vocab")]⟩
      = (⟨[("A/t.wav", "wavbytes"), ("T/transcription.txt", "the text"),
               ("V/vocabulary.md", "the vocab")]⟩, "A/t.wav")
    ∧ transcribe_with_whisperx ⟨fun _ => ("x", "y"), fun _ _ => ("z", "en"), fun _ => Except.ok "c"⟩
        "A/t.wav" "T" "turbo" false ⟨[("A/t.wav", "wavbytes"), ("T/transcription.txt", "the text"),
               ("V/vocabulary.md", "the vocab")]⟩
      = some (⟨[("A/t.wav", "wavbytes"), ("T/transcription.txt", "the text"),
               ("V/vocabulary.md", "the vocab")]⟩, "the text")
    ∧ query_claude_api ⟨fun _ => ("x", "y"), fun _ _ => ("z", "en"), fun _ => Except.ok "c"⟩
        "txt" "P" "K" "V" "Korean" false ⟨[("A/t.wav", "wavbytes"), ("T/transcription.txt", "the text"),
               ("V/vocabulary.md", "the vocab")]⟩
      = some (⟨[("A/t.wav", "wavbytes"), ("T/transcription.txt", "the text"),
               ("V/vocabulary.md", "the vocab")]⟩, "the vocab") :=
  ⟨by decide, by decide, by decide,
   stage_cache_hit_contract.1 _ "u" "A" _ "t.wav" [] (by decide),
   stage_cache_hit_contract.2.1 _ "A/t.wav" "T" "turbo" _ "the text" (by decide),
   stage_cache_hit_contract.2.2 _ "txt" "P" "K" "V" "Korean" _ "the vocab" (by decide)⟩

/-- C3: completion-error swallowing.  On the compute path (probe miss or
force), with the key and template files readable, a completion-service
call that raises `e` is caught: the stage returns normally (`some`, never
an uncaught failure) with the textual payload `Error: {e}` as its result
and the filesystem unchanged, so the error text flows downstream into
extraction and rendering instead of aborting the run. -/
theorem completion_error_swallowed (w : World)
    (text promptPath keyPath vocabularyDir targetLanguage keyData templateData e : String)
    (force : Bool) (fs : FS)
    (hmiss : fs.read (vocabularyDir ++ "/vocabulary.md") = none ∨ force = true)
    (hkey : fs.read keyPath = some keyData)
    (htpl : fs.read promptPath = some templateData)
    (herr : w.complete (mkFullPrompt templateData targetLanguage text) = Except.error e) :
    query_claude_api w text promptPath keyPath vocabularyDir targetLanguage force fs
      = some (fs, "Error: " ++ e) := by
  rcases hmiss with h | h
  · simp [query_claude_api, FS.pathExists, h, hkey, htpl, herr]
  · subst h
    cases hv : fs.read (vocabularyDir ++ "/vocabulary.md") <;>
      simp [query_claude_api, FS.pathExists, hv, hkey, htpl, herr]

/-- C3 witness: a concrete erroring completion service, swallowed into an
`Error:` payload. -/
theorem completion_error_swallowed_witness :
    FS.read ⟨[("K", "KEY\n"), ("P", "Tell TARGET_LANGUAGE")]⟩ "V/vocabulary.md" = none
    ∧ FS.read ⟨[("K", "KEY\n"), ("P", "Tell TARGET_LANGUAGE")]⟩ "K" = some "KEY\n"
    ∧ FS.read ⟨[("K", "KEY\n"), ("P", "Tell TARGET_LANGUAGE")]⟩ "P" = some "Tell TARGET_LANGUAGE"
    ∧ query_claude_api ⟨fun _ => ("x", "y"), fun _ _ => ("z", "en"), fun _ => Except.error "boom"⟩
        "txt" "P" "K" "V" "Korean" false ⟨[("K", "KEY\n"), ("P", "Tell TARGET_LANGUAGE")]⟩
      = some (⟨[("K", "KEY\n"), ("P", "Tell TARGET_LANGUAGE")]⟩, "Error: " ++ "boom") :=
  ⟨by decide, by decide, by decide,
   completion_error_swallowed _ "txt" "P" "K" "V" "Korean" "KEY\n" "Tell TARGET_LANGUAGE"
     "boom" false _ (Or.inl (by decide)) (by decide) (by decide) rfl⟩

/-- C4 counterexample: the claim fails on the error path.  With the probe
missing (the stage executes) and a completion service that raises, the
stage returns the error payload but the filesystem is returned unchanged:
no raw-response debug artifact is persisted, contradicting the claim that
the treated-as-completion text is always persisted when the stage
executes. -/
theorem raw_artifact_missing_on_error :
    query_claude_api ⟨fun _ => ("x", "y"), fun _ _ => ("z", "en"), fun _ => Except.error "boom"⟩
        "txt" "P" "K" "V/3_vocabulary" "Korean" false ⟨[("K", "KEY\n"), ("P", "T")]⟩
      = some (⟨[("K", "KEY\n"), ("P", "T")]⟩, "Error: boom")
    ∧ FS.read ⟨[("K", "KEY\n"), ("P", "T")]⟩ "V/3_vocabulary/raw_response.txt" = none := by
  decide

/-- C4 (amended): whenever the completion stage executes and the
completion-service call succeeds, the returned completion text is
persisted as the raw-response debug artifact in the vocabulary directory
before the stage returns; when the call raises, the error payload is
returned downstream but no raw-response artifact is written. -/
theorem raw_artifact_on_success (w : World)
    (text promptPath keyPath vocabularyDir targetLanguage keyData templateData resp : String)
    (force : Bool) (fs : FS)
    (hmiss : fs.read (vocabularyDir ++ "/vocabulary.md") = none ∨ force = true)
    (hkey : fs.read keyPath = some keyData)
    (htpl : fs.read promptPath = some templateData)
    (hok : w.complete (mkFullPrompt templateData targetLanguage text) = Except.ok resp) :
    query_claude_api w text promptPath keyPath vocabularyDir targetLanguage force fs
      = some (fs.write (vocabularyDir ++ "/raw_response.txt") resp, resp)
    ∧ (fs.write (vocabularyDir ++ "/raw_response.txt") resp).read
        (vocabularyDir ++ "/raw_response.txt") = some resp := by
  refine ⟨?_, FS.read_write fs _ resp⟩
  rcases hmiss with h | h
  · simp [query_claude_api, FS.pathExists, h, hkey, htpl, hok]
  · subst h
    cases hv : fs.read (vocabularyDir ++ "/vocabulary.md") <;>
      simp [query_claude_api, FS.pathExists, hv, hkey, htpl, hok]

/-- C4 witness for the amended claim: a concrete successful completion,
persisted and read back. -/
theorem raw_artifact_on_success_witness :
    FS.read ⟨[("K", "KEY\n"), ("P", "T")]⟩ "V/vocabulary.md" = none
    ∧ query_claude_api ⟨fun _ => ("x", "y"), fun _ _ => ("z", "en"), fun _ => Except.ok "CARDS"⟩
        "txt" "P" "K" "V" "Korean" false ⟨[("K", "KEY\n"), ("P", "T")]⟩
      = some (FS.write ⟨[("K", "KEY\n"), ("P", "T")]⟩ "V/raw_response.txt" "CARDS", "CARDS")
    ∧ FS.read (FS.write ⟨[("K", "KEY\n"), ("P", "T")]⟩ "V/raw_response.txt" "CARDS")
        "V/raw_response.txt" = some "CARDS" := by
  refine ⟨by decide, ?_⟩
  exact raw_artifact_on_success _ "txt" "P" "K" "V" "Korean" "KEY\n" "T" "CARDS" false _
    (Or.inl (by decide)) (by decide) (by decide) rfl

/-- C9: identifier derivation.  The three recognised sample URLs resolve
to `abc123`; the `example.com` sample fails with the descriptive input
error; every URL whose netloc is none of the three recognised hosts fails
with that error; and when resolution fails the whole pipeline fails with
the same error for every collaborator — resolution happens before any
network call is attempted. -/
theorem video_id_derivation :
    get_video_id "https://youtu.be/abc123" = Except.ok "abc123"
    ∧ get_video_id "https://www.youtube.com/watch?v=abc123&t=5s" = Except.ok "abc123"
    ∧ get_video_id "https://youtube.com/embed/abc123" = Except.ok "abc123"
    ∧ get_video_id "https://example.com/abc123"
        = Except.error "Unsupported YouTube URL format: https://example.com/abc123"
    ∧ (∀ url : String,
        (urlparse url).netloc ≠ "youtu.be" → (urlparse url).netloc ≠ "www.youtube.com" →
        (urlparse url).netloc ≠ "youtube.com" →
        get_video_id url = Except.error ("Unsupported YouTube URL format: " ++ url))
    ∧ (∀ (w : World) (opts : Options) (currentDate : String) (fs : FS) (e : String),
        get_video_id opts.url = Except.error e →
        runPipeline w opts currentDate fs = Except.error e) := by
  refine ⟨rfl, rfl, rfl, rfl, ?_, ?_⟩
  · intro url h1 h2 h3
    simp only [get_video_id]
    rw [if_neg h1, if_neg (not_or.mpr ⟨h2, h3⟩)]
  · intro w opts currentDate fs e h
    simp only [runPipeline, h]

/-- C9 witness: the generic components applied at a concrete unrecognised
URL and a concrete pipeline invocation. -/
theorem video_id_derivation_witness :
    ((urlparse "ftp://nowhere/x").netloc ≠ "youtu.be"
      ∧ (urlparse "ftp://nowhere/x").netloc ≠ "www.youtube.com"
      ∧ (urlparse "ftp://nowhere/x").netloc ≠ "youtube.com")
    ∧ get_video_id "ftp://nowhere/x"
        = Except.error ("Unsupported YouTube URL format: " ++ "ftp://nowhere/x")
    ∧ get_video_id "ftp://nowhere/x"
        = Except.error "Unsupported YouTube URL format: ftp://nowhere/x"
    ∧ runPipeline ⟨fun _ => ("x", "y"), fun _ _ => ("z", "en"), fun _ => Except.ok "c"⟩
        ⟨"ftp://nowhere/x", "output", "turbo", false, "Korean"⟩ "20260101" ⟨[]⟩
        = Except.error "Unsupported YouTube URL format: ftp://nowhere/x" := by
  refine ⟨⟨by decide, by decide, by decide⟩, ?_, rfl, ?_⟩
  · exact video_id_derivation.2.2.2.2.1 "ftp://nowhere/x" (by decide) (by decide) (by decide)
  · exact video_id_derivation.2.2.2.2.2 _ ⟨"ftp://nowhere/x", "output", "turbo", false, "Korean"⟩
      "20260101" ⟨[]⟩ _ rfl

/-- C10: the render-and-persist step is not cache-guarded.
`save_claude_response` takes no force flag and probes nothing: on every
filesystem (in particular one already holding the target file) it writes
the rendered document at the returned path, the document begins with a
top-level heading holding the video title derived from the audio file
name, and when extraction yields zero records the document is the title
heading alone — still written, not skipped. -/
theorem render_persist_unguarded (response vocabularyDir audioFile currentDate : String)
    (fs : FS) :
    ((save_claude_response response vocabularyDir (some audioFile) currentDate fs).1).read
        ((save_claude_response response vocabularyDir (some audioFile) currentDate fs).2)
      = some (markdownText response (splitextBase (basename audioFile)))
    ∧ startsWithL ("# " ++ splitextBase (basename audioFile)).data
        (markdownText response (splitextBase (basename audioFile))).data = true
    ∧ (extract response = [] →
        markdownText response (splitextBase (basename audioFile))
          = "# " ++ splitextBase (basename audioFile) ++ "\n\n") := by
  refine ⟨FS.read_write fs _ _, ?_, ?_⟩
  · have key : (markdownText response (splitextBase (basename audioFile))).data
        = ("# " ++ splitextBase (basename audioFile)).data
          ++ ("\n\n" ++ String.intercalate "\n\n"
                ((extract response).map card)).data := by
      simp [markdownText, renderDoc, data_append, List.append_assoc]
    rw [startsWithL, key, dropPre_append]
    rfl
  · intro h
    simp only [markdownText, renderDoc, h, List.map_nil]
    rw [String.intercalate]
    rw [append_empty_str]

/-- C10 witness: a completion text with no extractable records still
produces (and persists) the bare title-heading document. -/
theorem render_persist_unguarded_witness :
    ((save_claude_response "plain text" "out/v/3_vocabulary"
        (some "out/v/1_audio/Nice Talk.wav") "20260101" ⟨[]⟩).1).read
        ((save_claude_response "plain text" "out/v/3_vocabulary"
            (some "out/v/1_audio/Nice Talk.wav") "20260101" ⟨[]⟩).2)
      = some (markdownText "plain text" (splitextBase (basename "out/v/1_audio/Nice Talk.wav")))
    ∧ startsWithL ("# " ++ splitextBase (basename "out/v/1_audio/Nice Talk.wav")).data
        (markdownText "plain text"
          (splitextBase (basename "out/v/1_audio/Nice Talk.wav"))).data = true
    ∧ extract "plain text" = []
    ∧ markdownText "plain text" (splitextBase (basename "out/v/1_audio/Nice Talk.wav"))
        = "# Nice Talk\n\n" := by
  have h := render_persist_unguarded "plain text" "out/v/3_vocabulary"
    "out/v/1_audio/Nice Talk.wav" "20260101" ⟨[]⟩
  refine ⟨h.1, h.2.1, by decide, ?_⟩
  have := h.2.2 (by decide)
  rw [this]
  decide

/-! ## The idempotence scenario (claim C1)

A concrete completed first run, re-run with identical arguments and
`force = false`.  The second run's world differs only in what the
external collaborators would answer, which is observable only if a stage
re-executes. -/

/-- Initial filesystem: just the credential and template files. -/
def fsStart : FS :=
  ⟨[("resources/claude_api_key.txt", "KEY\n"),
    ("resources/prompt.txt", "List TARGET_LANGUAGE words")]⟩

/-- Fixed CLI arguments with `force = false`. -/
def optsRun : Options := ⟨"https://youtu.be/abc123", "output", "turbo", false, "Korean"⟩

/-- Collaborators answering during the first run. -/
def wFirst : World :=
  ⟨fun _ => ("Talk", "AUDIODATA"), fun _ _ => ("hello world", "en"),
   fun _ => Except.ok "RESPONSE_ONE"⟩

/-- Collaborators answering during the re-run; they answer differently,
so any artifact showing their answers proves the stage re-executed. -/
def wSecond : World :=
  ⟨fun _ => ("OTHER", "OTHERAUDIO"), fun _ _ => ("different", "fr"),
   fun _ => Except.ok "RESPONSE_TWO"⟩

/-- The filesystem after the completed first run. -/
def fsAfterFirst : FS :=
  match runPipeline wFirst optsRun "20260101" fsStart with
  | Except.ok r => r.1
  | Except.error _ => ⟨[]⟩

/-- The filesystem after re-running with identical arguments. -/
def fsAfterSecond : FS :=
  match runPipeline wSecond optsRun "20260101" fsAfterFirst with
  | Except.ok r => r.1
  | Except.error _ => ⟨[]⟩

/-- C1: the idempotence claim fails on the code.  After a completed first
run the vocabulary stage's own existence probe (`vocabulary.md`) was
never written — the stage persists `{date}_{title}.md` instead — so on
the re-run the probe misses, the completion service is invoked again and
`raw_response.txt` is rewritten with the new answer: a persisted file's
content changes and not every cacheable stage is skipped.  The audio and
transcript artifacts, whose probes do hit, keep the first run's bytes. -/
theorem vocabulary_probe_never_hits :
    FS.read fsAfterFirst "output/abc123/3_vocabulary/vocabulary.md" = none
    ∧ FS.read fsAfterFirst "output/abc123/3_vocabulary/raw_response.txt" = some "RESPONSE_ONE"
    ∧ FS.read fsAfterSecond "output/abc123/3_vocabulary/raw_response.txt" = some "RESPONSE_TWO"
    ∧ FS.read fsAfterSecond "output/abc123/2_transcript/transcription.txt" = some "hello world"
    ∧ FS.read fsAfterSecond "output/abc123/1_audio/Talk.wav" = some "AUDIODATA" := by
  decide

end YVocab
